import Mathlib

/-!
A shallow embedding of `src/backend/agv_manager.py` (the AGV telemetry
control loop) and proofs about its message-processing pipeline.

The embedding models:
* Python/JSON values (`Json`) as produced by `json.loads`; JSON numbers are
  modelled as integers (the claims under study only involve integer
  batteries; a non-integer number would behave like any other present value,
  i.e. it is passed through unchanged).
* Python dict access `data.get(key, default)` (`pyGetD`), raising
  `AttributeError` on non-dict receivers;
* Python integer comparison `value < 20` (`pyLtInt`), raising `TypeError`
  on non-numeric operands (Python `bool` compares as 0/1);
* Python equality `value == "MOVING"` (`pyEqStr`), which is total and
  returns `False` on cross-type comparison;
* Python `s.split('/')[-1]` (`splitChar` / `lastSegment`);
* the three pipeline functions `save_to_db`, `process_and_control` and
  `on_message`, instrumented to return the list of observable events they
  perform (store invocation, DB connection open/close, row insertion,
  rule-engine invocation, MQTT publish, diagnostic print), plus — for code
  that can raise an exception that escapes to the caller — the escaping
  exception.  Failure of the external collaborators (DB connect, DB
  execute/commit, MQTT publish) is injected through an `Env` record.
* the ingestion loop `run_loop`, which processes a list of inbound
  messages in order by calling `on_message` on each.

Inbound MQTT payload decoding (`message.payload.decode("utf-8")` followed
by `json.loads(payload)`) is abstracted by classifying a payload by its
decode outcome (`Payload`): invalid UTF-8 bytes, UTF-8 text that is not
JSON, or a decoded JSON value.  Everything downstream of decoding is
modelled from the source.
-/

namespace AGV

/-- JSON/Python values as returned by `json.loads`.  Numbers are modelled
as integers. -/
inductive Json where
  | null : Json
  | bool : Bool → Json
  | int : Int → Json
  | str : String → Json
  | arr : List Json → Json
  | obj : List (String × Json) → Json

/-- Exceptions that can escape a pipeline stage to its caller. -/
inductive PyError where
  | attributeError : PyError
  | typeError : PyError
  | publishError : PyError
deriving DecidableEq

/-- Python dict lookup with last-occurrence-wins semantics (as
`json.loads` keeps the last duplicate key). -/
def dictGet (k : String) : List (String × Json) → Option Json
  | [] => none
  | (k', v) :: rest =>
    match dictGet k rest with
    | some w => some w
    | none => if k' = k then some v else none

/-- `kvs.get(k, d)` on a dict known to be a dict. -/
def dictGetD (kvs : List (String × Json)) (k : String) (d : Json) : Json :=
  (dictGet k kvs).getD d

/-- `data.get(k, d)` in Python: succeeds on a dict, raises
`AttributeError` on any other receiver. -/
def pyGetD (data : Json) (k : String) (d : Json) : Except PyError Json :=
  match data with
  | Json.obj kvs => Except.ok (dictGetD kvs k d)
  | _ => Except.error PyError.attributeError

/-- Python `v < n` for an integer literal `n`: defined for numbers
(`bool` counts as 0/1), a `TypeError` otherwise. -/
def pyLtInt (v : Json) (n : Int) : Except PyError Bool :=
  match v with
  | Json.int m => Except.ok (decide (m < n))
  | Json.bool b => Except.ok (decide ((if b then (1 : Int) else 0) < n))
  | _ => Except.error PyError.typeError

/-- Python `v == s` for a string literal `s`: total, `False` across
types. -/
def pyEqStr (v : Json) (s : String) : Bool :=
  match v with
  | Json.str t => decide (t = s)
  | _ => false

/-- Python `str.split(sep)` for a one-character separator, on the
character list of the string: `"".split(sep) == [""]`, and the result is
always non-empty. -/
def splitChar (sep : Char) : List Char → List (List Char)
  | [] => [[]]
  | c :: cs =>
    if c = sep then [] :: splitChar sep cs
    else
      match splitChar sep cs with
      | [] => [[c]]
      | g :: gs => (c :: g) :: gs

/-- Python `s.split('/')[-1]`: the final path segment of `s`. -/
def lastSegment (s : String) : String :=
  String.mk ((splitChar '/' s.data).getLastD [])

/-- `CONTROL_TOPIC_BASE` from the source: base topic for outbound
control commands. -/
def CONTROL_TOPIC_BASE : String := "factory/control"

/-- Observable events of one message's processing, in program order. -/
inductive Event where
  /-- `save_to_db(data)` was invoked. -/
  | storeCall : Event
  /-- a DB connection was acquired (`get_db_connection()` returned). -/
  | connOpen : Event
  /-- the error print in `save_to_db`'s `except` branch. -/
  | storeError : Event
  /-- one row `(agv_id, battery, status, recorded_at)` was inserted and
  committed. -/
  | rowWritten : Json → Json → Json → String → Event
  /-- the DB connection was released (`conn.close()` in `finally`). -/
  | connClose : Event
  /-- `process_and_control(client, data)` was invoked. -/
  | ruleCall : Event
  /-- `client.publish(topic, body)` succeeded, with body fields
  `target_id`, `command`, `reason`, `timestamp`. -/
  | published : String → Json → String → String → Int → Event
  /-- a diagnostic print in one of `on_message`'s `except` branches. -/
  | diag : Event

abbrev Trace := List Event

def isStoreCall : Event → Bool
  | Event.storeCall => true
  | _ => false

def isConnOpen : Event → Bool
  | Event.connOpen => true
  | _ => false

def isStoreError : Event → Bool
  | Event.storeError => true
  | _ => false

def isRowWritten : Event → Bool
  | Event.rowWritten _ _ _ _ => true
  | _ => false

def isConnClose : Event → Bool
  | Event.connClose => true
  | _ => false

def isRuleCall : Event → Bool
  | Event.ruleCall => true
  | _ => false

def isPublished : Event → Bool
  | Event.published _ _ _ _ _ => true
  | _ => false

def isDiag : Event → Bool
  | Event.diag => true
  | _ => false

/-- Failure injection for the external collaborators: whether
`get_db_connection()`, `cursor.execute`/`conn.commit`, or
`client.publish` raises. -/
structure Env where
  connectFails : Bool
  executeFails : Bool
  publishFails : Bool

/-- All collaborators succeed. -/
def env0 : Env := ⟨false, false, false⟩

/-- Decode outcome of an inbound MQTT payload: the bytes fail UTF-8
decoding, the text fails JSON parsing, or a JSON value was decoded. -/
inductive Payload where
  | invalidUtf8 : Payload
  | invalidJson : String → Payload
  | json : Json → Payload

/-- `save_to_db(data)`: open a connection, extract the three fields with
defaults, insert one row stamped `now`, commit; any exception is caught
and logged inside the function (it never escapes); the connection, if
acquired, is closed in the `finally` block.  Returns the events in
order. -/
def save_to_db (env : Env) (data : Json) (now : String) : Trace :=
  Event.storeCall ::
    if env.connectFails then
      -- `get_db_connection()` raised: `conn` is still `None`, the
      -- `except` branch prints, the `finally` branch skips `close`.
      [Event.storeError]
    else
      Event.connOpen ::
        (match data with
          | Json.obj kvs =>
            let agv_id := dictGetD kvs "agv_id" (Json.str "Unknown")
            let battery := dictGetD kvs "battery" (Json.int 0)
            let status := dictGetD kvs "status" (Json.str "Unknown")
            if env.executeFails then [Event.storeError, Event.connClose]
            else [Event.rowWritten agv_id battery status now, Event.connClose]
          | _ =>
            -- `data.get("agv_id", ...)` raised `AttributeError` on a
            -- non-dict; caught by the `except`, no row written.
            [Event.storeError, Event.connClose])

/-- `process_and_control(client, data)`: extract the three fields with
defaults, and if `battery < 20 and status == "MOVING"`, publish a
`RETURN_TO_BASE` command with `target_id = agv_id` on the topic
`CONTROL_TOPIC_BASE + "/" + agv_id.split('/')[-1]`.  Returns the events
in order plus the exception escaping to the caller, if any. -/
def process_and_control (env : Env) (data : Json) (ts : Int) :
    Trace × Option PyError :=
  match data with
  | Json.obj kvs =>
    let agv_id := dictGetD kvs "agv_id" (Json.str "Unknown")
    let battery := dictGetD kvs "battery" (Json.int 0)
    let status := dictGetD kvs "status" (Json.str "Unknown")
    match pyLtInt battery 20 with
    | Except.error e => ([Event.ruleCall], some e)
    | Except.ok lowBat =>
      if lowBat && pyEqStr status "MOVING" then
        -- the command payload is built with `target_id: agv_id` (the
        -- full id); then `agv_id.split('/')` derives the topic suffix,
        -- raising `AttributeError` when `agv_id` is not a string.
        match agv_id with
        | Json.str s =>
          let short_id := lastSegment s
          let target_topic := CONTROL_TOPIC_BASE ++ "/" ++ short_id
          if env.publishFails then
            ([Event.ruleCall], some PyError.publishError)
          else
            ([Event.ruleCall,
              Event.published target_topic (Json.str s) "RETURN_TO_BASE"
                "Low Battery" ts], none)
        | _ => ([Event.ruleCall], some PyError.attributeError)
      else ([Event.ruleCall], none)
  | _ =>
    -- `data.get("agv_id", ...)` raised `AttributeError` on a non-dict.
    ([Event.ruleCall], some PyError.attributeError)

/-- `on_message(client, userdata, message)`: decode, then
`save_to_db(data)`, then `process_and_control(client, data)`; the whole
body is inside `try`, with `except json.JSONDecodeError` and
`except Exception` branches that print a diagnostic and return.  Returns
the events of processing one message; it always returns (no exception
escapes the handler). -/
def on_message (env : Env) (p : Payload) (now : String) (ts : Int) : Trace :=
  match p with
  | Payload.invalidUtf8 => [Event.diag]
  | Payload.invalidJson _ => [Event.diag]
  | Payload.json v =>
    let t1 := save_to_db env v now
    let r := process_and_control env v ts
    t1 ++ r.1 ++ (match r.2 with
      | some _ => [Event.diag]
      | none => [])

/-- One inbound message together with the wall-clock values the pipeline
stamps while processing it. -/
structure Msg where
  payload : Payload
  now : String
  ts : Int

/-- The ingestion loop: the MQTT client delivers messages one at a time
and each is processed to completion by `on_message` before the next. -/
def run_loop (env : Env) : List Msg → Trace
  | [] => []
  | m :: rest => on_message env m.payload m.now m.ts ++ run_loop env rest

/-- The accessor for a published event's topic. -/
def topicOf : Event → Option String
  | Event.published t _ _ _ _ => some t
  | _ => none

/-- The accessor for a published event's `target_id` body field. -/
def targetIdOf : Event → Option Json
  | Event.published _ x _ _ _ => some x
  | _ => none

/-- A payload the spec calls malformed: invalid UTF-8, invalid JSON, or
JSON that is not an object. -/
def isMalformed : Payload → Bool
  | Payload.invalidUtf8 => true
  | Payload.invalidJson _ => true
  | Payload.json (Json.obj _) => false
  | Payload.json _ => true

/-- The spec's running example reading:
`{"agv_id": "factory/agv/007", "battery": 15, "status": "MOVING"}`. -/
def data007 : Json :=
  Json.obj [("agv_id", Json.str "factory/agv/007"),
            ("battery", Json.int 15),
            ("status", Json.str "MOVING")]

/-- A reading whose `battery` field is present but not a number. -/
def dataBadBat : Json :=
  Json.obj [("agv_id", Json.str "factory/agv/007"),
            ("battery", Json.str "low"),
            ("status", Json.str "MOVING")]

/-- A reading with no `battery` field. -/
def dataNoBat : Json :=
  Json.obj [("agv_id", Json.str "factory/agv/007"),
            ("status", Json.str "MOVING")]

/-- The DB insert/commit raises. -/
def envExec : Env := ⟨false, true, false⟩

/-- `client.publish` raises. -/
def envPub : Env := ⟨false, false, true⟩

/- ## Helper lemmas -/

theorem splitChar_of_not_mem (sep : Char) (l : List Char) (h : sep ∉ l) :
    splitChar sep l = [l] := by
  induction l with
  | nil => rfl
  | cons c cs ih =>
    rw [splitChar,
      if_neg (fun (hc : c = sep) => h (hc ▸ List.mem_cons_self c cs)),
      ih (fun hm => h (List.mem_cons_of_mem c hm))]

theorem lastSegment_of_no_slash (s : String) (h : ('/' : Char) ∉ s.data) :
    lastSegment s = s := by
  rw [lastSegment, splitChar_of_not_mem _ _ h]
  cases s with
  | mk l => rfl

/-- Case analysis on `process_and_control`: either it publishes nothing
(and its trace is just the invocation marker), or the resolved `agv_id`
is a string, publishing succeeds, and the trace holds exactly one
published command of the fixed shape. -/
theorem pc_cases (env : Env) (v : Json) (ts : Int) :
    (∃ err, process_and_control env v ts = ([Event.ruleCall], err)) ∨
    (∃ kvs s, v = Json.obj kvs ∧
      dictGetD kvs "agv_id" (Json.str "Unknown") = Json.str s ∧
      env.publishFails = false ∧
      process_and_control env v ts =
        ([Event.ruleCall,
          Event.published (CONTROL_TOPIC_BASE ++ "/" ++ lastSegment s)
            (Json.str s) "RETURN_TO_BASE" "Low Battery" ts], none)) := by
  cases v with
  | obj kvs =>
    cases hlt : pyLtInt (dictGetD kvs "battery" (Json.int 0)) 20 with
    | error e =>
      refine Or.inl ⟨some e, ?_⟩
      simp only [process_and_control, hlt]
    | ok lowBat =>
      cases hand : lowBat &&
          pyEqStr (dictGetD kvs "status" (Json.str "Unknown")) "MOVING" with
      | false =>
        refine Or.inl ⟨none, ?_⟩
        simp [process_and_control, hlt, hand]
      | true =>
        cases hag : dictGetD kvs "agv_id" (Json.str "Unknown") with
        | str s =>
          cases hpf : env.publishFails with
          | true =>
            refine Or.inl ⟨some PyError.publishError, ?_⟩
            simp [process_and_control, hlt, hand, hag, hpf]
          | false =>
            refine Or.inr ⟨kvs, s, rfl, hag, rfl, ?_⟩
            simp [process_and_control, hlt, hand, hag, hpf]
        | null =>
          refine Or.inl ⟨some PyError.attributeError, ?_⟩
          simp [process_and_control, hlt, hand, hag]
        | bool b =>
          refine Or.inl ⟨some PyError.attributeError, ?_⟩
          simp [process_and_control, hlt, hand, hag]
        | int n =>
          refine Or.inl ⟨some PyError.attributeError, ?_⟩
          simp [process_and_control, hlt, hand, hag]
        | arr l =>
          refine Or.inl ⟨some PyError.attributeError, ?_⟩
          simp [process_and_control, hlt, hand, hag]
        | obj o =>
          refine Or.inl ⟨some PyError.attributeError, ?_⟩
          simp [process_and_control, hlt, hand, hag]
  | null => exact Or.inl ⟨some PyError.attributeError, rfl⟩
  | bool b => exact Or.inl ⟨some PyError.attributeError, rfl⟩
  | int n => exact Or.inl ⟨some PyError.attributeError, rfl⟩
  | str s => exact Or.inl ⟨some PyError.attributeError, rfl⟩
  | arr l => exact Or.inl ⟨some PyError.attributeError, rfl⟩

/-- Every `save_to_db` trace is the invocation marker followed by events
none of which is a store call, a rule call, a publish, or a loop
diagnostic. -/
theorem save_to_db_shape (env : Env) (v : Json) (now : String) :
    ∃ r, save_to_db env v now = Event.storeCall :: r ∧
      r.countP isStoreCall = 0 ∧ r.countP isRuleCall = 0 ∧
      r.countP isPublished = 0 ∧ r.countP isDiag = 0 := by
  obtain ⟨cf, ef, pf⟩ := env
  cases cf with
  | true => exact ⟨[Event.storeError], rfl, rfl, rfl, rfl, rfl⟩
  | false =>
    cases ef with
    | true =>
      cases v with
      | obj kvs =>
        exact ⟨[Event.connOpen, Event.storeError, Event.connClose],
          rfl, rfl, rfl, rfl, rfl⟩
      | null =>
        exact ⟨[Event.connOpen, Event.storeError, Event.connClose],
          rfl, rfl, rfl, rfl, rfl⟩
      | bool b =>
        exact ⟨[Event.connOpen, Event.storeError, Event.connClose],
          rfl, rfl, rfl, rfl, rfl⟩
      | int n =>
        exact ⟨[Event.connOpen, Event.storeError, Event.connClose],
          rfl, rfl, rfl, rfl, rfl⟩
      | str s =>
        exact ⟨[Event.connOpen, Event.storeError, Event.connClose],
          rfl, rfl, rfl, rfl, rfl⟩
      | arr l =>
        exact ⟨[Event.connOpen, Event.storeError, Event.connClose],
          rfl, rfl, rfl, rfl, rfl⟩
    | false =>
      cases v with
      | obj kvs =>
        exact ⟨[Event.connOpen,
          Event.rowWritten (dictGetD kvs "agv_id" (Json.str "Unknown"))
            (dictGetD kvs "battery" (Json.int 0))
            (dictGetD kvs "status" (Json.str "Unknown")) now,
          Event.connClose], rfl, rfl, rfl, rfl, rfl⟩
      | null =>
        exact ⟨[Event.connOpen, Event.storeError, Event.connClose],
          rfl, rfl, rfl, rfl, rfl⟩
      | bool b =>
        exact ⟨[Event.connOpen, Event.storeError, Event.connClose],
          rfl, rfl, rfl, rfl, rfl⟩
      | int n =>
        exact ⟨[Event.connOpen, Event.storeError, Event.connClose],
          rfl, rfl, rfl, rfl, rfl⟩
      | str s =>
        exact ⟨[Event.connOpen, Event.storeError, Event.connClose],
          rfl, rfl, rfl, rfl, rfl⟩
      | arr l =>
        exact ⟨[Event.connOpen, Event.storeError, Event.connClose],
          rfl, rfl, rfl, rfl, rfl⟩

/-- Full characterization of `process_and_control` on a well-formed
reading (string vehicle id, integer battery, string status): no
exception escapes, and the trace holds exactly one published command
when `battery < 20` and `status = "MOVING"`, none otherwise. -/
theorem pc_characterization (env : Env) (kvs : List (String × Json))
    (vid st : String) (b : Int) (ts : Int)
    (hv : dictGetD kvs "agv_id" (Json.str "Unknown") = Json.str vid)
    (hb : dictGetD kvs "battery" (Json.int 0) = Json.int b)
    (hs : dictGetD kvs "status" (Json.str "Unknown") = Json.str st)
    (hp : env.publishFails = false) :
    (process_and_control env (Json.obj kvs) ts).2 = none ∧
    (process_and_control env (Json.obj kvs) ts).1.filter isPublished =
      (if b < 20 ∧ st = "MOVING"
       then [Event.published (CONTROL_TOPIC_BASE ++ "/" ++ lastSegment vid)
              (Json.str vid) "RETURN_TO_BASE" "Low Battery" ts]
       else []) := by
  have hlt : pyLtInt (dictGetD kvs "battery" (Json.int 0)) 20
      = Except.ok (decide (b < 20)) := by rw [hb]; rfl
  have heq : pyEqStr (dictGetD kvs "status" (Json.str "Unknown")) "MOVING"
      = decide (st = "MOVING") := by rw [hs]; rfl
  by_cases h1 : b < 20
  · by_cases h2 : st = "MOVING"
    · simp [process_and_control, hlt, heq, hv, hp, h1, h2, isPublished,
        List.filter]
    · simp [process_and_control, hlt, heq, hv, hp, h1, h2, isPublished,
        List.filter]
  · simp [process_and_control, hlt, heq, hv, hp, h1, isPublished, List.filter]

/- ## Claim theorems -/

/-- C1: for every Reading (string vehicle id, integer battery, string
status), rule evaluation produces exactly one `RETURN_TO_BASE` command
when `battery < 20` and `status = "MOVING"`, and produces no command
otherwise — any status other than exactly `"MOVING"` with low battery,
or any battery `≥ 20` with any status, yields no command. -/
theorem C1_rule_engine_iff (env : Env) (kvs : List (String × Json))
    (vid st : String) (b : Int) (ts : Int)
    (hv : dictGetD kvs "agv_id" (Json.str "Unknown") = Json.str vid)
    (hb : dictGetD kvs "battery" (Json.int 0) = Json.int b)
    (hs : dictGetD kvs "status" (Json.str "Unknown") = Json.str st)
    (hp : env.publishFails = false) :
    (process_and_control env (Json.obj kvs) ts).2 = none ∧
    (process_and_control env (Json.obj kvs) ts).1.filter isPublished =
      (if b < 20 ∧ st = "MOVING"
       then [Event.published (CONTROL_TOPIC_BASE ++ "/" ++ lastSegment vid)
              (Json.str vid) "RETURN_TO_BASE" "Low Battery" ts]
       else []) :=
  pc_characterization env kvs vid st b ts hv hb hs hp

/-- C1 witness: the spec's scenario reading fires the rule exactly
once. -/
theorem C1_witness :
    (process_and_control env0 data007 0).2 = none ∧
    (process_and_control env0 data007 0).1.filter isPublished =
      (if (15 : Int) < 20 ∧ "MOVING" = "MOVING"
       then [Event.published
              (CONTROL_TOPIC_BASE ++ "/" ++ lastSegment "factory/agv/007")
              (Json.str "factory/agv/007") "RETURN_TO_BASE" "Low Battery" 0]
       else []) :=
  C1_rule_engine_iff env0
    [("agv_id", Json.str "factory/agv/007"), ("battery", Json.int 15),
     ("status", Json.str "MOVING")]
    "factory/agv/007" "MOVING" 15 0 rfl rfl rfl rfl

/-- C2 counterexample: on the spec's own scenario reading the published
body's `target_id` is the full vehicle id `"factory/agv/007"`, which
differs from the last path segment `"007"`. -/
theorem C2_counterexample :
    lastSegment "factory/agv/007" = "007" ∧
    (process_and_control env0 data007 0).1.filter isPublished =
      [Event.published "factory/control/007" (Json.str "factory/agv/007")
        "RETURN_TO_BASE" "Low Battery" 0] ∧
    Json.str "factory/agv/007" ≠ Json.str "007" :=
  ⟨rfl, rfl, by simp⟩

/-- C2 amended: whenever a command is published, the body's `target_id`
equals the Reading's full `vehicle_id` unchanged (the last path segment
is used only for the topic). -/
theorem C2_target_is_full_vehicle_id (env : Env) (v : Json) (ts : Int)
    (e : Event) (s : String)
    (hid : pyGetD v "agv_id" (Json.str "Unknown") = Except.ok (Json.str s))
    (he : e ∈ (process_and_control env v ts).1)
    (hp : isPublished e = true) :
    targetIdOf e = some (Json.str s) := by
  rcases pc_cases env v ts with ⟨err, hpc⟩ | ⟨kvs, s', hv, hag, hpf, hpc⟩
  · rw [hpc] at he
    simp only [List.mem_singleton] at he
    subst he
    simp [isPublished] at hp
  · subst hv
    rw [hpc] at he
    simp only [List.mem_cons, List.mem_singleton, List.not_mem_nil,
      or_false] at he
    rcases he with he | he
    · subst he
      simp [isPublished] at hp
    · subst he
      simp only [pyGetD, hag, Except.ok.injEq, Json.str.injEq] at hid
      subst hid
      rfl

/-- C2 witness: the command published for the scenario reading carries
`target_id = "factory/agv/007"`. -/
theorem C2_witness :
    targetIdOf (Event.published "factory/control/007"
      (Json.str "factory/agv/007") "RETURN_TO_BASE" "Low Battery" 0) =
      some (Json.str "factory/agv/007") :=
  C2_target_is_full_vehicle_id env0 data007 0 _ "factory/agv/007" rfl
    (List.Mem.tail _ (List.Mem.head _)) rfl

/-- C3 counterexample: a decoded JSON array — a malformed payload per
the claim — is passed to both the Telemetry Store (`save_to_db`) and the
Rule Engine (`process_and_control`): both invocations appear in the
trace, contradicting "no store invocation". -/
theorem C3_counterexample :
    isMalformed (Payload.json (Json.arr [])) = true ∧
    (on_message env0 (Payload.json (Json.arr [])) "t" 0).countP
      isStoreCall = 1 ∧
    (on_message env0 (Payload.json (Json.arr [])) "t" 0).countP
      isRuleCall = 1 :=
  ⟨rfl, rfl, rfl⟩

/-- C3 amended: for every malformed payload (invalid UTF-8, invalid
JSON, or JSON that is not an object) no row is written, no command is
published, a diagnostic is emitted, and the loop continues with the next
message; invalid UTF-8 and invalid JSON are dropped before the store or
rule engine runs, while a JSON non-object is passed to both but its
field access fails (caught inside the store, and at the loop boundary
for the rule engine). -/
theorem C3_malformed_never_persisted (env : Env) (p : Payload)
    (now : String) (ts : Int) (rest : List Msg)
    (hm : isMalformed p = true) :
    (on_message env p now ts).countP isRowWritten = 0 ∧
    (on_message env p now ts).countP isPublished = 0 ∧
    0 < (on_message env p now ts).countP isDiag ∧
    run_loop env (⟨p, now, ts⟩ :: rest) =
      on_message env p now ts ++ run_loop env rest := by
  obtain ⟨cf, ef, pf⟩ := env
  cases p with
  | invalidUtf8 => exact ⟨rfl, rfl, Nat.le_refl 1, rfl⟩
  | invalidJson s => exact ⟨rfl, rfl, Nat.le_refl 1, rfl⟩
  | json v =>
    cases v with
    | obj kvs => simp [isMalformed] at hm
    | null =>
      cases cf <;> cases ef <;> cases pf <;> exact ⟨rfl, rfl, Nat.le_refl 1, rfl⟩
    | bool b =>
      cases cf <;> cases ef <;> cases pf <;> exact ⟨rfl, rfl, Nat.le_refl 1, rfl⟩
    | int n =>
      cases cf <;> cases ef <;> cases pf <;> exact ⟨rfl, rfl, Nat.le_refl 1, rfl⟩
    | str s =>
      cases cf <;> cases ef <;> cases pf <;> exact ⟨rfl, rfl, Nat.le_refl 1, rfl⟩
    | arr l =>
      cases cf <;> cases ef <;> cases pf <;> exact ⟨rfl, rfl, Nat.le_refl 1, rfl⟩

/-- C3 witness: the bytes decoding to the JSON string `"not-json"` (a
scalar, not an object) write no row, publish nothing, emit a diagnostic,
and the loop goes on. -/
theorem C3_witness :
    (on_message env0 (Payload.json (Json.str "not-json")) "t" 0).countP
      isRowWritten = 0 ∧
    (on_message env0 (Payload.json (Json.str "not-json")) "t" 0).countP
      isPublished = 0 ∧
    0 < (on_message env0 (Payload.json (Json.str "not-json")) "t" 0).countP
      isDiag ∧
    run_loop env0 (⟨Payload.json (Json.str "not-json"), "t", 0⟩ :: []) =
      on_message env0 (Payload.json (Json.str "not-json")) "t" 0 ++
        run_loop env0 [] :=
  C3_malformed_never_persisted env0 (Payload.json (Json.str "not-json"))
    "t" 0 [] rfl

/-- C4 counterexample: a present but non-integer `battery` (the string
`"low"`) is persisted as the string `"low"`, not as `0`, and rule
evaluation raises a `TypeError` instead of treating the battery as 0. -/
theorem C4_counterexample :
    (save_to_db env0 dataBadBat "t").filter isRowWritten =
      [Event.rowWritten (Json.str "factory/agv/007") (Json.str "low")
        (Json.str "MOVING") "t"] ∧
    Json.str "low" ≠ Json.int 0 ∧
    (process_and_control env0 dataBadBat 0).2 = some PyError.typeError :=
  ⟨rfl, by simp, rfl⟩

/-- C4 amended: an absent `battery` field defaults to 0 — the row is
persisted with battery 0 and rule evaluation treats the battery as 0 (it
fires exactly when the status is `"MOVING"`, since `0 < 20`); a present
non-integer battery value is NOT defaulted but passed through
unchanged. -/
theorem C4_absent_battery_defaults (env : Env) (kvs : List (String × Json))
    (vid st : String) (now : String) (ts : Int)
    (hb : dictGet "battery" kvs = none)
    (hv : dictGetD kvs "agv_id" (Json.str "Unknown") = Json.str vid)
    (hs : dictGetD kvs "status" (Json.str "Unknown") = Json.str st)
    (hc : env.connectFails = false) (he : env.executeFails = false)
    (hp : env.publishFails = false) :
    (save_to_db env (Json.obj kvs) now).filter isRowWritten =
      [Event.rowWritten (Json.str vid) (Json.int 0) (Json.str st) now] ∧
    (process_and_control env (Json.obj kvs) ts).1.filter isPublished =
      (if st = "MOVING"
       then [Event.published (CONTROL_TOPIC_BASE ++ "/" ++ lastSegment vid)
              (Json.str vid) "RETURN_TO_BASE" "Low Battery" ts]
       else []) := by
  have hb0 : dictGetD kvs "battery" (Json.int 0) = Json.int 0 := by
    simp [dictGetD, hb]
  constructor
  · simp [save_to_db, hc, he, hv, hb0, hs, isRowWritten, List.filter]
  · have h := (pc_characterization env kvs vid st 0 ts hv hb0 hs hp).2
    rw [h]
    have h20 : (0 : Int) < 20 := by norm_num
    simp [h20]

/-- C4 witness: the scenario reading without a `battery` field persists
with battery 0 and still triggers the `RETURN_TO_BASE` command. -/
theorem C4_witness :
    (save_to_db env0 dataNoBat "t").filter isRowWritten =
      [Event.rowWritten (Json.str "factory/agv/007") (Json.int 0)
        (Json.str "MOVING") "t"] ∧
    (process_and_control env0 dataNoBat 0).1.filter isPublished =
      (if "MOVING" = "MOVING"
       then [Event.published
              (CONTROL_TOPIC_BASE ++ "/" ++ lastSegment "factory/agv/007")
              (Json.str "factory/agv/007") "RETURN_TO_BASE" "Low Battery" 0]
       else []) :=
  C4_absent_battery_defaults env0
    [("agv_id", Json.str "factory/agv/007"), ("status", Json.str "MOVING")]
    "factory/agv/007" "MOVING" "t" 0 rfl rfl rfl rfl rfl rfl

/-- C5 counterexample: when the DB insert raises, `save_to_db` catches
the exception itself, and processing of the same message continues —
the rule engine still runs and the command is still published after the
store error, contradicting "no subsequent pipeline stage runs". -/
theorem C5_counterexample :
    on_message envExec (Payload.json data007) "t" 0 =
      [Event.storeCall, Event.connOpen, Event.storeError, Event.connClose,
       Event.ruleCall,
       Event.published "factory/control/007" (Json.str "factory/agv/007")
         "RETURN_TO_BASE" "Low Battery" 0] :=
  rfl

/-- C5 amended: no exception escapes `on_message` — the loop always
continues with the next message and nothing is requeued; a Telemetry
Store exception is caught inside `save_to_db` and processing continues
with rule evaluation (and possibly dispatch), while a Command Dispatcher
exception is caught at the loop boundary and ends that message's
processing with no command published. -/
theorem C5_loop_resilience (env : Env) (v : Json) (now : String) (ts : Int)
    (rest : List Msg) :
    run_loop env (⟨Payload.json v, now, ts⟩ :: rest) =
      on_message env (Payload.json v) now ts ++ run_loop env rest ∧
    0 < (on_message env (Payload.json v) now ts).countP isRuleCall ∧
    (env.publishFails = true →
      (on_message env (Payload.json v) now ts).countP isPublished = 0) := by
  refine ⟨rfl, ?_, ?_⟩
  · obtain ⟨r1, h1, -, hr1, -, -⟩ := save_to_db_shape env v now
    rcases pc_cases env v ts with ⟨err, hpc⟩ | ⟨kvs, s, hv, hag, hpf, hpc⟩
    · cases err with
      | none =>
        simp [on_message, h1, hpc, List.countP_append, List.countP_cons,
          isRuleCall, hr1]
      | some e =>
        simp [on_message, h1, hpc, List.countP_append, List.countP_cons,
          isRuleCall, hr1]
    · simp [on_message, h1, hpc, List.countP_append, List.countP_cons,
        isRuleCall, hr1]
  · intro hpub
    obtain ⟨r1, h1, -, -, hp1, -⟩ := save_to_db_shape env v now
    rcases pc_cases env v ts with ⟨err, hpc⟩ | ⟨kvs, s, hv, hag, hpf, hpc⟩
    · cases err with
      | none =>
        simp [on_message, h1, hpc, List.countP_append, List.countP_cons,
          isPublished, hp1]
      | some e =>
        simp [on_message, h1, hpc, List.countP_append, List.countP_cons,
          isPublished, isDiag, hp1]
    · rw [hpf] at hpub
      exact absurd hpub (by simp)

/-- C5 witness: with a failing publisher, the scenario message is
processed without crash, the rule engine runs, nothing is published, and
the loop goes on. -/
theorem C5_witness :
    run_loop envPub (⟨Payload.json data007, "t", 0⟩ :: []) =
      on_message envPub (Payload.json data007) "t" 0 ++ run_loop envPub [] ∧
    0 < (on_message envPub (Payload.json data007) "t" 0).countP isRuleCall ∧
    (on_message envPub (Payload.json data007) "t" 0).countP isPublished = 0 :=
  ⟨(C5_loop_resilience envPub data007 "t" 0 []).1,
   (C5_loop_resilience envPub data007 "t" 0 []).2.1,
   (C5_loop_resilience envPub data007 "t" 0 []).2.2 rfl⟩

/-- C6: a row is always written from the three payload fields with the
documented defaults — `"Unknown"` for a missing `agv_id`, `0` for a
missing `battery`, `"Unknown"` for a missing `status` — and every
present field is persisted with its payload value unchanged. -/
theorem C6_persisted_field_defaults (env : Env)
    (kvs : List (String × Json)) (now : String)
    (hc : env.connectFails = false) (he : env.executeFails = false) :
    save_to_db env (Json.obj kvs) now =
      [Event.storeCall, Event.connOpen,
       Event.rowWritten (dictGetD kvs "agv_id" (Json.str "Unknown"))
         (dictGetD kvs "battery" (Json.int 0))
         (dictGetD kvs "status" (Json.str "Unknown")) now,
       Event.connClose] ∧
    (dictGet "agv_id" kvs = none →
      dictGetD kvs "agv_id" (Json.str "Unknown") = Json.str "Unknown") ∧
    (dictGet "battery" kvs = none →
      dictGetD kvs "battery" (Json.int 0) = Json.int 0) ∧
    (dictGet "status" kvs = none →
      dictGetD kvs "status" (Json.str "Unknown") = Json.str "Unknown") ∧
    (∀ w, dictGet "agv_id" kvs = some w →
      dictGetD kvs "agv_id" (Json.str "Unknown") = w) ∧
    (∀ w, dictGet "battery" kvs = some w →
      dictGetD kvs "battery" (Json.int 0) = w) ∧
    (∀ w, dictGet "status" kvs = some w →
      dictGetD kvs "status" (Json.str "Unknown") = w) := by
  refine ⟨?_, ?_, ?_, ?_, ?_, ?_, ?_⟩
  · simp [save_to_db, hc, he]
  · intro h; simp [dictGetD, h]
  · intro h; simp [dictGetD, h]
  · intro h; simp [dictGetD, h]
  · intro w h; simp [dictGetD, h]
  · intro w h; simp [dictGetD, h]
  · intro w h; simp [dictGetD, h]

/-- C6 witness: an empty payload object persists as
`("Unknown", 0, "Unknown", now)`. -/
theorem C6_witness :
    save_to_db env0 (Json.obj []) "t" =
      [Event.storeCall, Event.connOpen,
       Event.rowWritten (Json.str "Unknown") (Json.int 0)
         (Json.str "Unknown") "t",
       Event.connClose] :=
  (C6_persisted_field_defaults env0 [] "t" rfl rfl).1

/-- C7: every published command's topic is the fixed control prefix
`CONTROL_TOPIC_BASE = "factory/control"` concatenated with `'/'` and the
derived short vehicle id. -/
theorem C7_control_topic (env : Env) (v : Json) (ts : Int) (e : Event)
    (s : String)
    (hid : pyGetD v "agv_id" (Json.str "Unknown") = Except.ok (Json.str s))
    (he : e ∈ (process_and_control env v ts).1)
    (hp : isPublished e = true) :
    topicOf e = some (CONTROL_TOPIC_BASE ++ "/" ++ lastSegment s) ∧
    CONTROL_TOPIC_BASE ++ "/" ++ lastSegment s =
      "factory/control/" ++ lastSegment s := by
  rcases pc_cases env v ts with ⟨err, hpc⟩ | ⟨kvs, s', hv, hag, hpf, hpc⟩
  · rw [hpc] at he
    simp only [List.mem_singleton] at he
    subst he
    simp [isPublished] at hp
  · subst hv
    rw [hpc] at he
    simp only [List.mem_cons, List.not_mem_nil, or_false] at he
    rcases he with he | he
    · subst he
      simp [isPublished] at hp
    · subst he
      simp only [pyGetD, hag, Except.ok.injEq, Json.str.injEq] at hid
      subst hid
      exact ⟨rfl, rfl⟩

/-- C7 witness: the scenario command goes to topic
`factory/control/007`. -/
theorem C7_witness :
    topicOf (Event.published "factory/control/007"
      (Json.str "factory/agv/007") "RETURN_TO_BASE" "Low Battery" 0) =
      some (CONTROL_TOPIC_BASE ++ "/" ++ lastSegment "factory/agv/007") ∧
    CONTROL_TOPIC_BASE ++ "/" ++ lastSegment "factory/agv/007" =
      "factory/control/" ++ lastSegment "factory/agv/007" :=
  C7_control_topic env0 data007 0 _ "factory/agv/007" rfl
    (List.Mem.tail _ (List.Mem.head _)) rfl

/-- C8: processing of every decoded message performs the store stage
first, then the rule stage, then at most one publish, each stage at most
once, and any publish comes after both the record attempt and the rule
invocation. -/
theorem C8_pipeline_order (env : Env) (v : Json) (now : String) (ts : Int) :
    ∃ t₁ t₂,
      on_message env (Payload.json v) now ts =
        Event.storeCall :: (t₁ ++ Event.ruleCall :: t₂) ∧
      t₁.countP isStoreCall = 0 ∧ t₁.countP isRuleCall = 0 ∧
      t₁.countP isPublished = 0 ∧
      t₂.countP isStoreCall = 0 ∧ t₂.countP isRuleCall = 0 ∧
      t₂.countP isPublished ≤ 1 := by
  obtain ⟨r1, h1, hs1, hr1, hp1, hd1⟩ := save_to_db_shape env v now
  rcases pc_cases env v ts with ⟨err, hpc⟩ | ⟨kvs, s, hv, hag, hpf, hpc⟩
  · cases err with
    | none =>
      refine ⟨r1, [], ?_, hs1, hr1, hp1, rfl, rfl, Nat.zero_le 1⟩
      simp [on_message, h1, hpc]
    | some e =>
      refine ⟨r1, [Event.diag], ?_, hs1, hr1, hp1, rfl, rfl, Nat.zero_le 1⟩
      simp [on_message, h1, hpc]
  · refine ⟨r1,
      [Event.published (CONTROL_TOPIC_BASE ++ "/" ++ lastSegment s)
        (Json.str s) "RETURN_TO_BASE" "Low Battery" ts],
      ?_, hs1, hr1, hp1, rfl, rfl, Nat.le_refl 1⟩
    simp [on_message, h1, hpc]

/-- C9: whenever `save_to_db` acquires a DB connection, the connection
is released on every exit path — after a successful insert-and-commit as
well as after any error — and the release is the last thing the store
does. -/
theorem C9_connection_release (env : Env) (v : Json) (now : String) :
    (save_to_db env v now).countP isConnOpen =
      (save_to_db env v now).countP isConnClose ∧
    (0 < (save_to_db env v now).countP isConnOpen →
      (save_to_db env v now).getLast? = some Event.connClose) := by
  obtain ⟨cf, ef, pf⟩ := env
  cases cf with
  | true => exact ⟨rfl, fun h => absurd h (Nat.lt_irrefl 0)⟩
  | false =>
    cases ef with
    | true =>
      cases v with
      | obj kvs => exact ⟨rfl, fun _ => rfl⟩
      | null => exact ⟨rfl, fun _ => rfl⟩
      | bool b => exact ⟨rfl, fun _ => rfl⟩
      | int n => exact ⟨rfl, fun _ => rfl⟩
      | str s => exact ⟨rfl, fun _ => rfl⟩
      | arr l => exact ⟨rfl, fun _ => rfl⟩
    | false =>
      cases v with
      | obj kvs => exact ⟨rfl, fun _ => rfl⟩
      | null => exact ⟨rfl, fun _ => rfl⟩
      | bool b => exact ⟨rfl, fun _ => rfl⟩
      | int n => exact ⟨rfl, fun _ => rfl⟩
      | str s => exact ⟨rfl, fun _ => rfl⟩
      | arr l => exact ⟨rfl, fun _ => rfl⟩

/-- C9 witness: the scenario write opens one connection and ends by
closing it. -/
theorem C9_witness :
    0 < (save_to_db env0 data007 "t").countP isConnOpen ∧
    (save_to_db env0 data007 "t").getLast? = some Event.connClose :=
  ⟨by decide, (C9_connection_release env0 data007 "t").2 (by decide)⟩

/-- C10: the split-on-'/' last-segment transform is the identity on
separator-free vehicle ids, so a command for such a Reading is published
on `"factory/control/"` followed by the full vehicle id. -/
theorem C10_no_separator_identity (env : Env) (kvs : List (String × Json))
    (vid : String) (b : Int) (ts : Int)
    (hv : dictGetD kvs "agv_id" (Json.str "Unknown") = Json.str vid)
    (hb : dictGetD kvs "battery" (Json.int 0) = Json.int b)
    (hs : dictGetD kvs "status" (Json.str "Unknown") = Json.str "MOVING")
    (hp : env.publishFails = false) (hlow : b < 20)
    (hns : ('/' : Char) ∉ vid.data) :
    lastSegment vid = vid ∧
    (process_and_control env (Json.obj kvs) ts).1.filter isPublished =
      [Event.published ("factory/control/" ++ vid) (Json.str vid)
        "RETURN_TO_BASE" "Low Battery" ts] := by
  have hls := lastSegment_of_no_slash vid hns
  refine ⟨hls, ?_⟩
  have h := (pc_characterization env kvs vid "MOVING" b ts hv hb hs hp).2
  rw [h, if_pos ⟨hlow, rfl⟩, hls]
  rfl

/-- C10 witness: a flat vehicle id `"AGV9"` with low battery while
moving is commanded on topic `factory/control/AGV9`. -/
theorem C10_witness :
    lastSegment "AGV9" = "AGV9" ∧
    (process_and_control env0
      (Json.obj [("agv_id", Json.str "AGV9"), ("battery", Json.int 5),
        ("status", Json.str "MOVING")]) 0).1.filter isPublished =
      [Event.published ("factory/control/" ++ "AGV9") (Json.str "AGV9")
        "RETURN_TO_BASE" "Low Battery" 0] :=
  C10_no_separator_identity env0
    [("agv_id", Json.str "AGV9"), ("battery", Json.int 5),
     ("status", Json.str "MOVING")]
    "AGV9" 5 0 rfl rfl rfl rfl (by decide) (by decide)

end AGV
